import Mathlib

set_option maxRecDepth 8192

/-!
Shallow embedding of the chaos-bot VLAN rotation engine
(`chaos_bot/vlan_hopper.py`, `lease_db.py`, `discovery.py`, `scheduler.py`,
`web.py`) and verification of the specification claims about it.

External effects (subprocess invocations of `ip`, `dhclient`, `nmap`, module
execution, the DHCP server, random choices) are modelled by an explicit
environment/oracle record; every kernel command issued by the hopper is
appended to a command log, mirroring the executor-mock call log the spec's
testable properties refer to.
-/

namespace ChaosBot

/-- Hopper state string: `idle | hopping | attacking | cooldown`
(`VlanHopper._state`). -/
inductive HState
  | idle
  | hopping
  | attacking
  | cooldown
deriving DecidableEq, Repr

/-- One VLAN entry of the configuration (`config["vlans"]` element):
`id`, `gateway` (empty string models a missing/empty gateway, matching
Python truthiness of `vlan.get("gateway", "")`), `targets`. -/
structure Vlan where
  vid : Nat
  gateway : String
  targets : List String
deriving DecidableEq, Repr

/-- One lease-journal record, reduced to the fields the duplicate check
reads (`leases` table: `vlan_id`, `ip`); list order is insertion order,
i.e. ascending autoincrement `id`. -/
structure Lease where
  vlan : Nat
  ip : String
deriving DecidableEq, Repr

/-- A kernel/external command issued through `_run_cmd`, as recorded by an
executor mock call log. -/
inductive Cmd
  | linkAdd (iface : String) (vlan : Nat)
  | linkSetUp (iface : String)
  | dhcpAcquire (iface : String)
  | dhcpRelease (iface : String)
  | ruleAdd (ip : String)
  | routeAdd (gw : String) (iface : String)
  | ruleDel (ip : String)
  | routeFlush
  | linkSetDown (iface : String)
  | linkDelete (iface : String)
deriving DecidableEq, Repr

/-- A module report as built by `scheduler.run_once`:
`{"module": name, "status": ..., "message": ...}`. -/
structure Rpt where
  module : String
  status : String
  message : String
deriving DecidableEq, Repr

/-- Outcome of one `module.run(targets)` call: either a returned report
body (status/message) or a raised exception with its message. -/
inductive RunOutcome
  | ok (status : String) (message : String)
  | raises (msg : String)
deriving DecidableEq, Repr

/-- Observable scheduler events: a module invocation, or the inter-module
jitter sleep executed after processing the named module. -/
inductive Ev
  | ran (name : String)
  | slept (afterName : String)
deriving DecidableEq, Repr

-- ── Lease journal (`lease_db.py`) ───────────────────────────────

/-- `LeaseDB.check_duplicate(vlan_id, ip)`: the SQL
`SELECT ip FROM leases WHERE vlan_id = ? ORDER BY id DESC LIMIT 1`
scans records in descending id order (= reversed insertion order) and
takes the first one for the VLAN; returns whether its ip equals `ip`
(`False` when no row). -/
def checkDuplicate (leases : List Lease) (vid : Nat) (ip : String) : Bool :=
  match leases.reverse.find? (fun l => l.vlan == vid) with
  | none => false
  | some l => l.ip == ip

/-- Spec-shaped companion for C4: "the most recent journal record whose
vlan_id equals v" — the last inserted record for the VLAN. -/
def mostRecentFor (leases : List Lease) (vid : Nat) : Option Lease :=
  (leases.filter (fun l => l.vlan == vid)).getLast?

-- ── Discovery output parsing (`discovery.py`) ───────────────────

/-- Python `\s` on a single line (lines were already split on newlines). -/
def isWs (c : Char) : Bool :=
  c = ' ' ∨ c = '\t' ∨ c = '\x0b' ∨ c = '\x0c' ∨ c = '\r' ∨ c = '\n'

/-- Strip a literal pattern from the head of the character list
(the anchored literal part of `re.match`). -/
def dropLit : List Char → List Char → Option (List Char)
  | [], rest => some rest
  | _ :: _, [] => none
  | p :: ps, c :: cs => if c = p then dropLit ps cs else none

/-- `re.search(r"\(([^)]+)\)", s)`: leftmost `(` followed by a nonempty
run of non-`)` characters and a closing `)`; returns the captured run. -/
def parenContent : List Char → Option (List Char)
  | [] => none
  | '(' :: rest =>
    let content := rest.takeWhile (fun c => c ≠ ')')
    if content ≠ [] ∧ (rest.drop content.length).head? = some ')' then
      some content
    else
      parenContent rest
  | _ :: rest => parenContent rest

/-- One line of the nmap-output loop in `discover_hosts`:
`re.match(r"Nmap scan report for (\S+)", line)` takes the first
whitespace-free token after the literal; then the parenthesized-IP
search is applied *to that token*. Returns the host string the code
appends (before the exclusion filter), or `none` when the line does not
match. -/
def parseReportLine (line : String) : Option String :=
  match dropLit "Nmap scan report for ".toList line.toList with
  | none => none
  | some rest =>
    let token := rest.takeWhile (fun c => ¬ isWs c)
    if token = [] then none
    else
      match parenContent token with
      | some ip => some ip.asString
      | none => some token.asString

/-- The parse-plus-exclusion part of `discover_hosts`: parse every line,
keep hosts not in `excluded ∪ {sourceIp}`. -/
def discoverParse (lines : List String) (excluded : List String)
    (sourceIp : String) : List String :=
  (lines.filterMap parseReportLine).filter
    (fun ip => ¬ (sourceIp :: excluded).contains ip)

-- ── Module runner (`scheduler.run_once`) ────────────────────────

/-- The report `run_once` produces for one enabled module: on a normal
return the returned dict with `"module"` set; on an exception the
`{"module": name, "status": "error", "message": str(e)}` dict. -/
def reportFor (behavior : String → List String → RunOutcome)
    (targets : List String) (name : String) : Rpt :=
  match behavior name targets with
  | .ok st msg => { module := name, status := st, message := msg }
  | .raises m => { module := name, status := "error", message := m }

/-- The `for name in module_names` loop of `run_once`; `lastName` is
`module_names[-1]` (jitter sleeps are skipped after the last name).
Disabled modules are skipped by `continue` before the try block and
before the jitter sleep. -/
def runOnceGo (behavior : String → List String → RunOutcome)
    (enabled : String → Bool) (targets : List String)
    (lastName : Option String) : List String → List Rpt × List Ev
  | [] => ([], [])
  | name :: rest =>
    if enabled name then
      let evs := Ev.ran name ::
        (if some name ≠ lastName then [Ev.slept name] else [])
      let r := runOnceGo behavior enabled targets lastName rest
      (reportFor behavior targets name :: r.1, evs ++ r.2)
    else
      runOnceGo behavior enabled targets lastName rest

/-- `scheduler.run_once(modules, targets, config)` with `stop_event=None`
(as `hop_once` calls it): `order` is the shuffled `list(modules.keys())`,
`behavior` the modules' `run`, `enabled` the per-module
`config["modules"][name].get("enabled", True)`. Returns the report list
and the event trace. -/
def runOnce (behavior : String → List String → RunOutcome)
    (enabled : String → Bool) (targets : List String)
    (order : List String) : List Rpt × List Ev :=
  runOnceGo behavior enabled targets order.getLast? order

-- ── DHCP retry (`VlanHopper._obtain_dhcp_with_retry`) ───────────

/-- Running state of `_obtain_dhcp_with_retry`: current and last seen ip,
counters of `_obtain_dhcp` invocations and `dhclient -r` releases, and
the command log. -/
structure DhcpSt where
  ip : Option String
  lastIp : Option String
  acquires : Nat
  releases : Nat
  cmds : List Cmd
deriving DecidableEq, Repr

/-- The `for attempt in range(3)` loop of `_obtain_dhcp_with_retry`.
`oracle k` is what the `k`-th `_obtain_dhcp` call (0-based over the whole
method) returns. A failed acquire continues; a duplicate ip records
`last_ip`, releases the lease and continues; a fresh ip breaks. -/
def dhcpLoop (oracle : Nat → Option String) (leases : List Lease)
    (vid : Nat) (iface : String) : Nat → DhcpSt → DhcpSt
  | 0, st => st
  | fuel + 1, st =>
    let res := oracle st.acquires
    let st1 : DhcpSt :=
      { st with acquires := st.acquires + 1,
                cmds := st.cmds ++ [Cmd.dhcpAcquire iface] }
    match res with
    | none => dhcpLoop oracle leases vid iface fuel { st1 with ip := none }
    | some i =>
      if checkDuplicate leases vid i then
        dhcpLoop oracle leases vid iface fuel
          { st1 with ip := none, lastIp := some i,
                     releases := st1.releases + 1,
                     cmds := st1.cmds ++ [Cmd.dhcpRelease iface] }
      else
        { st1 with ip := some i, lastIp := some i }

/-- `_obtain_dhcp_with_retry(iface, vlan_id)`: the 3-attempt loop, then
the accept-duplicate fallback `ip = self._obtain_dhcp(iface) or last_ip`,
which performs one more acquire when the loop ended with no accepted ip
but some ip had been seen. -/
def obtainDhcpWithRetry (oracle : Nat → Option String) (leases : List Lease)
    (vid : Nat) (iface : String) : DhcpSt :=
  let st := dhcpLoop oracle leases vid iface 3
    { ip := none, lastIp := none, acquires := 0, releases := 0, cmds := [] }
  match st.ip, st.lastIp with
  | none, some l =>
    let r := oracle st.acquires
    { st with acquires := st.acquires + 1,
              cmds := st.cmds ++ [Cmd.dhcpAcquire iface],
              ip := some (r.getD l) }
  | _, _ => st

-- ── VLAN hopper (`vlan_hopper.py`) ──────────────────────────────

/-- In-memory hopper state: configuration (`interface`, `vlans`), the
ActiveHop fields `_current_vlan`, `_current_iface`, `_current_ip`, the
`_state` string, and the lease journal contents. -/
structure Hopper where
  interface : String
  vlans : List Vlan
  currentVlan : Option Nat
  currentIface : Option String
  currentIp : Option String
  hstate : HState
  leases : List Lease
deriving DecidableEq, Repr

/-- Environment for one `hop_once` call: the random VLAN choice, whether
`ip link add` fails (`check=True`, so `subprocess.CalledProcessError`
propagates out of `_create_vlan_iface`), the successive `_obtain_dhcp`
results, whether the discovery step raises an uncaught exception
(`subprocess.run` OSError / gateway parse error — `discover_hosts`
catches only timeout and missing binary), the discovery result
otherwise, whether the journal append raises (sqlite error), and the
report list `run_once` returns. -/
structure Env where
  choiceIdx : Nat
  createRaises : Bool
  dhcp : List (Option String)
  discoveryRaises : Bool
  discovered : List String
  appendRaises : Bool
  moduleReports : List Rpt
deriving DecidableEq, Repr

/-- Result dict of a normal `hop_once` return, reduced to status/message. -/
structure HopResult where
  status : String
  message : String
deriving DecidableEq, Repr

/-- Exceptions that can propagate out of `hop_once`. -/
inductive Exc
  | indexError
  | cmdFailed
  | discoveryError
  | journalError
deriving DecidableEq, Repr

instance {ε α : Type} [DecidableEq ε] [DecidableEq α] :
    DecidableEq (Except ε α) := fun x y =>
  match x, y with
  | Except.ok a, Except.ok b =>
    if h : a = b then isTrue (by rw [h])
    else isFalse (by intro he; injection he; contradiction)
  | Except.error a, Except.error b =>
    if h : a = b then isTrue (by rw [h])
    else isFalse (by intro he; injection he; contradiction)
  | Except.ok _, Except.error _ => isFalse (by intro he; cases he)
  | Except.error _, Except.ok _ => isFalse (by intro he; cases he)

/-- Sub-interface name `f"{self.interface}.{vlan_id}"`
(`_create_vlan_iface`). -/
def ifaceName (h : Hopper) (vid : Nat) : String :=
  h.interface ++ "." ++ toString vid

/-- The command sequence of `VlanHopper._teardown`: `ip rule del` (only
when an ip is known), `ip route flush table attack`, `dhclient -r`,
`ip link set down`, `ip link delete`, all with `check=False`. -/
def teardownCmds (ip : Option String) (iface : String) : List Cmd :=
  (match ip with
   | some i => [Cmd.ruleDel i]
   | none => []) ++
  [Cmd.routeFlush, Cmd.dhcpRelease iface, Cmd.linkSetDown iface,
   Cmd.linkDelete iface]

/-- `VlanHopper._teardown(vlan_id, ip, iface)`: issue the teardown
commands, clear the ActiveHop fields, set state to cooldown. -/
def teardown (h : Hopper) (ip : Option String) (iface : String) :
    Hopper × List Cmd :=
  ({ h with currentVlan := none, currentIface := none, currentIp := none,
            hstate := HState.cooldown },
   teardownCmds ip iface)

/-- The body of `hop_once` from `random.choice(available_vlans)` onward
(the `random.choice` is resolved by `env.choiceIdx` modulo the candidate
count, raising IndexError on an empty candidate list); mirrors the
source control flow statement by statement. Returns the final hopper
state, the issued command log, and either the returned result dict or
the propagated exception. -/
def hopCore (env : Env) (h : Hopper) (available : List Vlan) :
    Hopper × List Cmd × Except Exc HopResult :=
  match available[env.choiceIdx % available.length]? with
    | none => (h, [], Except.error Exc.indexError)
    | some vlan =>
      let vid := vlan.vid
      let iface := ifaceName h vid
      let h1 := { h with hstate := HState.hopping, currentVlan := some vid }
      if env.createRaises then
        (h1, [Cmd.linkAdd iface vid], Except.error Exc.cmdFailed)
      else
        let createLog := [Cmd.linkAdd iface vid, Cmd.linkSetUp iface]
        let h2 := { h1 with currentIface := some iface }
        let dst := obtainDhcpWithRetry (fun k => env.dhcp.getD k none)
          h.leases vid iface
        match dst.ip with
        | none =>
          let td := teardown h2 none iface
          (td.1, createLog ++ dst.cmds ++ td.2,
           Except.ok { status := "error", message := "DHCP failed" })
        | some ip =>
          let h3 := { h2 with currentIp := some ip }
          let routeLog :=
            if vlan.gateway ≠ "" then
              [Cmd.ruleAdd ip, Cmd.routeAdd vlan.gateway iface]
            else []
          if vlan.gateway ≠ "" ∧ env.discoveryRaises then
            (h3, createLog ++ dst.cmds ++ routeLog,
             Except.error Exc.discoveryError)
          else
            let discoveredHosts :=
              if vlan.gateway ≠ "" then env.discovered else []
            let targets :=
              if discoveredHosts.isEmpty then vlan.targets else discoveredHosts
            if targets.isEmpty then
              let td := teardown h3 (some ip) iface
              (td.1, createLog ++ dst.cmds ++ routeLog ++ td.2,
               Except.ok { status := "skipped", message := "No targets found" })
            else
              let h4 := { h3 with hstate := HState.attacking }
              if env.appendRaises then
                (h4, createLog ++ dst.cmds ++ routeLog,
                 Except.error Exc.journalError)
              else
                let h5 := { h4 with
                  leases := h4.leases ++ [{ vlan := vid, ip := ip }] }
                let td := teardown h5 (some ip) iface
                (td.1, createLog ++ dst.cmds ++ routeLog ++ td.2,
                 Except.ok { status := "complete", message := "" })

/-- `VlanHopper.hop_once(vlan_filter)`: the vlan-filter guard
(`available_vlans` empty with a filter present returns the
`No VLANs match filter` error without touching any state), then the hop
body `hopCore`. -/
def hopOnce (env : Env) (h : Hopper) (vlanFilter : Option (List Nat)) :
    Hopper × List Cmd × Except Exc HopResult :=
  let available :=
    match vlanFilter with
    | none => h.vlans
    | some f => h.vlans.filter (fun v => f.contains v.vid)
  if vlanFilter.isSome && available.isEmpty then
    (h, [], Except.ok { status := "error", message := "No VLANs match filter" })
  else
    hopCore env h available

/-- One iteration of the `while self._running` body of
`VlanHopper.run_daemon`: call `hop_once`; on an exception, tear down only
when both `_current_iface` and `_current_vlan` are set; then enter the
cooldown section (`self._state = "cooldown"`). -/
def daemonStep (env : Env) (vf : Option (List Nat)) (h : Hopper) :
    Hopper × List Cmd :=
  let r := hopOnce env h vf
  let h1 := r.1
  let log := r.2.1
  match r.2.2 with
  | Except.ok _ => ({ h1 with hstate := HState.cooldown }, log)
  | Except.error _ =>
    match h1.currentIface, h1.currentVlan with
    | some iface, some _ =>
      let td := teardown h1 h1.currentIp iface
      ({ td.1 with hstate := HState.cooldown }, log ++ td.2)
    | _, _ => ({ h1 with hstate := HState.cooldown }, log)

/-- The spec invariant of C2: in Idle or Cooldown the ActiveHop fields
are all cleared. -/
def hopperInv (h : Hopper) : Prop :=
  (h.hstate = HState.idle ∨ h.hstate = HState.cooldown) →
    h.currentVlan = none ∧ h.currentIface = none ∧ h.currentIp = none

instance (h : Hopper) : Decidable (hopperInv h) := by
  unfold hopperInv; infer_instance

-- ── Control plane (`web.py`) ────────────────────────────────────

/-- The shared web/daemon state `api_start` reads and writes: whether a
hopper was initialized, its state, the `stop_event` flag, and whether
`_state["daemon_thread"]` exists and is alive. -/
structure WebSt where
  hopperPresent : Bool
  hstate : HState
  stopEventSet : Bool
  daemonAlive : Bool
deriving DecidableEq, Repr

/-- Responses of `POST /api/v1/start`. -/
inductive StartResp
  | notInitialized
  | conflict
  | alreadyRunning
  | started
deriving DecidableEq, Repr

/-- `api_start`: 503 without hopper; 409 unless state is idle/cooldown;
then `stop_event.clear()`; then the already-running check; otherwise a
daemon thread is spawned. -/
def apiStart (s : WebSt) : WebSt × StartResp :=
  if ¬ s.hopperPresent then (s, StartResp.notInitialized)
  else if s.hstate ≠ HState.idle ∧ s.hstate ≠ HState.cooldown then
    (s, StartResp.conflict)
  else
    let s1 := { s with stopEventSet := false }
    if s1.daemonAlive then (s1, StartResp.alreadyRunning)
    else ({ s1 with daemonAlive := true }, StartResp.started)

/-- Responses of `POST /api/v1/hop`. -/
inductive HopApiResp
  | notInitialized
  | conflictAttacking
  | conflictHopping
  | hopTriggered
deriving DecidableEq, Repr

/-- The guard of `api_hop`: 503 without hopper, 409 while attacking,
409 while hopping; only otherwise is the hop worker spawned. -/
def apiHop (hopperPresent : Bool) (s : HState) : HopApiResp :=
  if ¬ hopperPresent then HopApiResp.notInitialized
  else if s = HState.attacking then HopApiResp.conflictAttacking
  else if s = HState.hopping then HopApiResp.conflictHopping
  else HopApiResp.hopTriggered

/-- The hopper-state trace of the `_run_trigger` worker in `api_trigger`:
the state in effect while `run_once` executes and the state after the
worker finishes. -/
structure TriggerTrace where
  stateDuringRun : HState
  stateAfter : HState
deriving DecidableEq, Repr

/-- The `_run_trigger` worker body: when a hopper exists, `_state` is set
to `"attacking"` before the try block and the `finally` clause sets it to
`"idle"` whether or not `build_modules`/`run_once` raised
(`bodyRaises`). Without a hopper the state is untouched. -/
def triggerWorker (hopperPresent : Bool) (prior : HState)
    (bodyRaises : Bool) : TriggerTrace :=
  let s1 := if hopperPresent then HState.attacking else prior
  let s2 := if hopperPresent then HState.idle else s1
  { stateDuringRun := s1,
    stateAfter := s2 }

/-- Targets `api_trigger` accepts: the union of every VLAN's `targets`
with every non-empty gateway. -/
def validTargets (vlans : List Vlan) : List String :=
  vlans.flatMap (fun v => v.targets) ++
    (vlans.filter (fun v => v.gateway ≠ "")).map (fun v => v.gateway)

/-- `api_trigger`: the guard and validation sequence of the endpoint,
then the worker trace on success. Errors carry the HTTP status text. -/
def apiTrigger (registry : List String) (vlans : List Vlan)
    (hopperPresent : Bool) (s : HState) (mods targs : List String)
    (bodyRaises : Bool) : Except String TriggerTrace :=
  if hopperPresent ∧ s = HState.attacking then
    Except.error "409 attacking"
  else if hopperPresent ∧ s = HState.hopping then
    Except.error "409 hopping"
  else if mods.isEmpty then Except.error "400 no modules"
  else if targs.isEmpty then Except.error "400 no targets"
  else if mods.any (fun m => ¬ registry.contains m) then
    Except.error "400 unknown module"
  else if targs.any (fun t => ¬ (validTargets vlans).contains t) then
    Except.error "400 target not in config"
  else
    Except.ok (triggerWorker hopperPresent s bodyRaises)

-- ════════════════════════════════════════════════════════════════
-- Theorems
-- ════════════════════════════════════════════════════════════════

-- ── Shared helper lemmas ────────────────────────────────────────

theorem find?_eq_head?_filter {α : Type} (p : α → Bool) :
    ∀ l : List α, l.find? p = (l.filter p).head? := by
  intro l
  induction l with
  | nil => rfl
  | cons a t ih =>
    cases h : p a with
    | true =>
      rw [List.find?_cons_of_pos _ h, List.filter_cons_of_pos h, List.head?_cons]
    | false =>
      rw [List.find?_cons_of_neg _ (by simp [h]), List.filter_cons_of_neg (by simp [h]), ih]

theorem reverse_find?_eq_getLast?_filter {α : Type} (p : α → Bool)
    (l : List α) : l.reverse.find? p = (l.filter p).getLast? := by
  rw [find?_eq_head?_filter, List.filter_reverse,
    ← List.getLast?_eq_head?_reverse]

-- ── C4: duplicate check reads only the most recent record ───────

/-- C4: `check_duplicate(v, ip)` is true iff the most recent journal
record for VLAN `v` has exactly that ip (false when no record for `v`
exists), and it depends only on that single most recent record, never on
earlier ones. -/
theorem c4_check_duplicate_most_recent :
    (∀ (j : List Lease) (v : Nat) (ip : String),
      checkDuplicate j v ip = true ↔
        ∃ l, mostRecentFor j v = some l ∧ l.ip = ip) ∧
    (∀ (j : List Lease) (v : Nat) (ip : String),
      (∀ l ∈ j, l.vlan ≠ v) → checkDuplicate j v ip = false) ∧
    (∀ (j₁ j₂ : List Lease) (l : Lease) (v : Nat) (ip : String),
      l.vlan = v →
        checkDuplicate (j₁ ++ [l]) v ip = checkDuplicate (j₂ ++ [l]) v ip) := by
  refine ⟨?_, ?_, ?_⟩
  · intro j v ip
    unfold checkDuplicate mostRecentFor
    rw [reverse_find?_eq_getLast?_filter]
    cases h : (j.filter (fun l => l.vlan == v)).getLast? with
    | none => simp
    | some l => simp [beq_iff_eq]
  · intro j v ip hnone
    unfold checkDuplicate
    have : (j.reverse.find? (fun l => l.vlan == v)) = none := by
      rw [List.find?_eq_none]
      intro l hl
      simp only [beq_iff_eq]
      exact hnone l (List.mem_reverse.1 hl)
    rw [this]
  · intro j₁ j₂ l v ip hv
    unfold checkDuplicate
    have hfind : ∀ j : List Lease,
        ((j ++ [l]).reverse.find? (fun x => x.vlan == v)) = some l := by
      intro j
      rw [List.reverse_append]
      simp [List.find?_cons, hv]
    rw [hfind j₁, hfind j₂]

/-- Witness for C4 at concrete inputs. -/
theorem c4_witness :
    checkDuplicate ([] : List Lease) 30 "10.0.0.5" = false ∧
    checkDuplicate [⟨30, "10.0.0.5"⟩] 30 "10.0.0.5" = true :=
  ⟨c4_check_duplicate_most_recent.2.1 [] 30 "10.0.0.5" (by simp),
   (c4_check_duplicate_most_recent.1 [⟨30, "10.0.0.5"⟩] 30 "10.0.0.5").2
     ⟨⟨30, "10.0.0.5"⟩, by decide, rfl⟩⟩

-- ── C7: hostname (ip) lines in nmap output ──────────────────────

/-- C7 (code bug evaluation): on a `scan report for <hostname> (<ip>)`
line the parser yields the hostname, not the parenthesized IP — the
`(\S+)` capture stops at the space before the parenthesis, so the
parenthesized-IP extraction that follows can never apply to this
format. -/
theorem c7_hostname_line_yields_hostname :
    parseReportLine "Nmap scan report for printer.lan (192.168.40.7)" =
      some "printer.lan" ∧
    parseReportLine "Nmap scan report for printer.lan (192.168.40.7)" ≠
      some "192.168.40.7" ∧
    discoverParse ["Nmap scan report for printer.lan (192.168.40.7)"]
      ["10.40.0.1"] "10.40.0.9" = ["printer.lan"] ∧
    parseReportLine "Nmap scan report for 172.16.40.20" =
      some "172.16.40.20" := by
  refine ⟨by decide, by decide, by decide, by decide⟩

-- ── C8: module exceptions are isolated ──────────────────────────

theorem runOnceGo_fst (behavior : String → List String → RunOutcome)
    (enabled : String → Bool) (targets : List String)
    (ln : Option String) :
    ∀ order : List String,
      (runOnceGo behavior enabled targets ln order).1 =
        order.filterMap (fun n =>
          if enabled n then some (reportFor behavior targets n) else none) := by
  intro order
  induction order with
  | nil => rfl
  | cons name rest ih =>
    by_cases h : enabled name
    · simp [runOnceGo, h, List.filterMap_cons, ih]
    · simp only [Bool.not_eq_true] at h
      simp [runOnceGo, h, List.filterMap_cons, ih]

/-- C8: for every module set, target list and configuration, a module
whose `run` raises contributes exactly the
`{module, status := "error", message}` report and the remaining modules
still contribute their own reports: the report list equals the
per-module outcomes of the enabled modules, in order, independent of any
raising module; no exception escapes `run_once`. -/
theorem c8_module_error_isolated :
    (∀ (behavior : String → List String → RunOutcome)
       (enabled : String → Bool) (targets : List String)
       (order : List String),
      (runOnce behavior enabled targets order).1 =
        order.filterMap (fun n =>
          if enabled n then some (reportFor behavior targets n) else none)) ∧
    (∀ (behavior : String → List String → RunOutcome)
       (enabled : String → Bool) (targets : List String)
       (order : List String) (n m : String),
      n ∈ order → enabled n = true →
      behavior n targets = RunOutcome.raises m →
        ({ module := n, status := "error", message := m } : Rpt) ∈
          (runOnce behavior enabled targets order).1) := by
  constructor
  · intro behavior enabled targets order
    exact runOnceGo_fst behavior enabled targets order.getLast? order
  · intro behavior enabled targets order n m hmem hen hraise
    unfold runOnce
    rw [runOnceGo_fst, List.mem_filterMap]
    refine ⟨n, hmem, ?_⟩
    rw [hen]
    simp [reportFor, hraise]

/-- Witness for C8: a raising module's error report is present while a
later module still reports. -/
theorem c8_witness :
    ({ module := "auth_prober", status := "error", message := "boom" } : Rpt) ∈
      (runOnce
        (fun n _ => if n = "auth_prober" then RunOutcome.raises "boom"
                    else RunOutcome.ok "complete" "")
        (fun _ => true) ["10.30.30.10"] ["auth_prober", "dns_noise"]).1 :=
  c8_module_error_isolated.2 _ _ _ _ "auth_prober" "boom"
    (by decide) rfl (by decide)

-- ── C10: disabled modules are skipped silently ──────────────────

theorem runOnceGo_disabled (behavior : String → List String → RunOutcome)
    (enabled : String → Bool) (targets : List String)
    (ln : Option String) (n : String) (hn : enabled n = false) :
    ∀ order : List String,
      (∀ r ∈ (runOnceGo behavior enabled targets ln order).1,
        r.module ≠ n) ∧
      Ev.ran n ∉ (runOnceGo behavior enabled targets ln order).2 ∧
      Ev.slept n ∉ (runOnceGo behavior enabled targets ln order).2 := by
  intro order
  induction order with
  | nil => simp [runOnceGo]
  | cons name rest ih =>
    by_cases h : enabled name
    · have hne : name ≠ n := by
        intro he; rw [he, hn] at h; exact absurd h (by decide)
      refine ⟨?_, ?_, ?_⟩
      · intro r hr
        simp only [runOnceGo, h, if_true, List.mem_cons] at hr
        rcases hr with rfl | hr
        · have hmod : (reportFor behavior targets name).module = name := by
            cases hb : behavior name targets <;> simp [reportFor, hb]
          rw [hmod]; exact hne
        · exact ih.1 r hr
      · intro hmem
        simp only [runOnceGo, h, if_true] at hmem
        rcases List.mem_append.1 hmem with hm | hm
        · rcases List.mem_cons.1 hm with he | hm2
          · injection he with hnn; exact hne hnn.symm
          · by_cases hln : some name ≠ ln <;> simp [hln] at hm2
        · exact ih.2.1 hm
      · intro hmem
        simp only [runOnceGo, h, if_true] at hmem
        rcases List.mem_append.1 hmem with hm | hm
        · rcases List.mem_cons.1 hm with he | hm2
          · cases he
          · by_cases hln : some name ≠ ln <;> simp [hln] at hm2
            exact hne hm2.symm
        · exact ih.2.2 hm
    · simp only [Bool.not_eq_true] at h
      simpa [runOnceGo, h] using ih

/-- C10: `run_once` silently skips a module whose configuration has
`enabled: false`: it contributes no report, is never invoked, and
triggers no inter-module jitter sleep of its own. -/
theorem c10_disabled_module_skipped
    (behavior : String → List String → RunOutcome)
    (enabled : String → Bool) (targets : List String)
    (order : List String) (n : String) (hn : enabled n = false) :
    (∀ r ∈ (runOnce behavior enabled targets order).1, r.module ≠ n) ∧
    Ev.ran n ∉ (runOnce behavior enabled targets order).2 ∧
    Ev.slept n ∉ (runOnce behavior enabled targets order).2 :=
  runOnceGo_disabled behavior enabled targets order.getLast? n hn order

/-- Witness for C10 at concrete inputs. -/
theorem c10_witness :
    Ev.ran "dns_noise" ∉
      (runOnce (fun _ _ => RunOutcome.ok "complete" "")
        (fun m => !(m == "dns_noise")) ["10.30.30.10"]
        ["net_scanner", "dns_noise", "http_probe"]).2 ∧
    Ev.slept "dns_noise" ∉
      (runOnce (fun _ _ => RunOutcome.ok "complete" "")
        (fun m => !(m == "dns_noise")) ["10.30.30.10"]
        ["net_scanner", "dns_noise", "http_probe"]).2 :=
  ⟨(c10_disabled_module_skipped _ _ _ _ "dns_noise" (by decide)).2.1,
   (c10_disabled_module_skipped _ _ _ _ "dns_noise" (by decide)).2.2⟩

-- ── C5: where the Idle/Cooldown hop guard lives ─────────────────

/-- C5 counterexample: `hop_once` itself performs no state guard — called
directly while the hopper state is `attacking`, it proceeds to create the
sub-interface, runs a full cycle and returns `complete` instead of
rejecting, and it mutates the hopper state. -/
theorem c5_counterexample :
    (hopOnce
        { choiceIdx := 0, createRaises := false,
          dhcp := [some "10.30.30.20"], discoveryRaises := false,
          discovered := ["10.30.30.40"], appendRaises := false,
          moduleReports := [{ module := "net_scanner", status := "complete",
                              message := "" }] }
        { interface := "eth1", vlans := [⟨30, "10.30.30.1", ["10.30.30.10"]⟩],
          currentVlan := none, currentIface := none, currentIp := none,
          hstate := HState.attacking, leases := [] }
        none).2.2 = Except.ok { status := "complete", message := "" } ∧
    Cmd.linkAdd "eth1.30" 30 ∈
      (hopOnce
        { choiceIdx := 0, createRaises := false,
          dhcp := [some "10.30.30.20"], discoveryRaises := false,
          discovered := ["10.30.30.40"], appendRaises := false,
          moduleReports := [{ module := "net_scanner", status := "complete",
                              message := "" }] }
        { interface := "eth1", vlans := [⟨30, "10.30.30.1", ["10.30.30.10"]⟩],
          currentVlan := none, currentIface := none, currentIp := none,
          hstate := HState.attacking, leases := [] }
        none).2.1 ∧
    (hopOnce
        { choiceIdx := 0, createRaises := false,
          dhcp := [some "10.30.30.20"], discoveryRaises := false,
          discovered := ["10.30.30.40"], appendRaises := false,
          moduleReports := [{ module := "net_scanner", status := "complete",
                              message := "" }] }
        { interface := "eth1", vlans := [⟨30, "10.30.30.1", ["10.30.30.10"]⟩],
          currentVlan := none, currentIface := none, currentIp := none,
          hstate := HState.attacking, leases := [] }
        none).1 ≠
      { interface := "eth1", vlans := [⟨30, "10.30.30.1", ["10.30.30.10"]⟩],
        currentVlan := none, currentIface := none, currentIp := none,
        hstate := HState.attacking, leases := [] } := by
  refine ⟨by decide, by decide, by decide⟩

/-- C5 (amended): the Idle/Cooldown guard is enforced by the control
plane, not by `hop_once`: `POST /api/v1/hop` answers 409 whenever the
hopper state is neither Idle nor Cooldown (i.e. Attacking or Hopping),
and only otherwise spawns the hop worker. -/
theorem c5_guard_in_control_plane (s : HState)
    (h1 : s ≠ HState.idle) (h2 : s ≠ HState.cooldown) :
    apiHop true s = HopApiResp.conflictAttacking ∨
    apiHop true s = HopApiResp.conflictHopping := by
  cases s <;> simp_all [apiHop]

/-- Witness for C5 amended, at state Attacking. -/
theorem c5_witness :
    apiHop true HState.attacking = HopApiResp.conflictAttacking ∨
    apiHop true HState.attacking = HopApiResp.conflictHopping :=
  c5_guard_in_control_plane HState.attacking (by decide) (by decide)

-- ── C6: /start while the daemon is already running ──────────────

/-- C6 counterexample: a `POST /start` issued while the daemon thread is
alive and the hopper is in Cooldown does return `already_running`, but it
is not side-effect free: `stop_event.clear()` runs before the
already-running check, so a pending stop signal is wiped. -/
theorem c6_counterexample :
    (apiStart { hopperPresent := true, hstate := HState.cooldown,
                stopEventSet := true, daemonAlive := true }).2 =
      StartResp.alreadyRunning ∧
    ({ hopperPresent := true, hstate := HState.cooldown,
       stopEventSet := true, daemonAlive := true } : WebSt).stopEventSet
      = true ∧
    (apiStart { hopperPresent := true, hstate := HState.cooldown,
                stopEventSet := true, daemonAlive := true }).1.stopEventSet
      = false := by
  refine ⟨by decide, by decide, by decide⟩

/-- C6 (amended): while the daemon thread is alive, `POST /start` with
the hopper in Idle or Cooldown returns `already_running` and changes
nothing except clearing the stop signal (no new daemon is started); with
the hopper Attacking or Hopping it is rejected with 409 instead. -/
theorem c6_already_running_clears_stop (s : WebSt)
    (h1 : s.hopperPresent = true) (h2 : s.daemonAlive = true)
    (h3 : s.hstate = HState.idle ∨ s.hstate = HState.cooldown) :
    (apiStart s).2 = StartResp.alreadyRunning ∧
    (apiStart s).1 = { s with stopEventSet := false } := by
  obtain ⟨hp, st, se, da⟩ := s
  dsimp at h1 h2
  subst h1 h2
  rcases h3 with h3 | h3 <;> dsimp at h3 <;> subst h3 <;> cases se <;>
    exact ⟨by decide, by decide⟩

/-- Witness for C6 amended at a concrete state. -/
theorem c6_witness :
    (apiStart { hopperPresent := true, hstate := HState.idle,
                stopEventSet := true, daemonAlive := true }).2 =
      StartResp.alreadyRunning :=
  (c6_already_running_clears_stop _ rfl rfl (Or.inl rfl)).1

-- ── C9: /trigger worker overwrites Cooldown with Idle ───────────

/-- C9: whenever `api_trigger`'s validation passes with the hopper in
Cooldown, the spawned worker sets the hopper state to `attacking` for
the module run and the `finally` clause then sets it unconditionally to
`idle`, so the prior Cooldown state is overwritten by Idle. -/
theorem c9_trigger_overwrites_cooldown
    (registry : List String) (vlans : List Vlan) (mods targs : List String)
    (br : Bool) (tr : TriggerTrace)
    (hok : apiTrigger registry vlans true HState.cooldown mods targs br =
      Except.ok tr) :
    tr.stateDuringRun = HState.attacking ∧
    tr.stateAfter = HState.idle ∧ tr.stateAfter ≠ HState.cooldown := by
  unfold apiTrigger at hok
  simp only [true_and] at hok
  split at hok
  · exact absurd hok (by simp)
  · split at hok
    · exact absurd hok (by simp)
    · split at hok
      · exact absurd hok (by simp)
      · split at hok
        · exact absurd hok (by simp)
        · split at hok
          · exact absurd hok (by simp)
          · split at hok
            · exact absurd hok (by simp)
            · have : tr = triggerWorker true HState.cooldown br := by
                injection hok with h; exact h.symm
              subst this
              exact ⟨rfl, rfl, by simp [triggerWorker]⟩

/-- Witness for C9: a concrete valid trigger request from Cooldown. -/
theorem c9_witness :
    apiTrigger ["net_scanner"] [⟨30, "10.30.30.1", ["10.30.30.10"]⟩] true
      HState.cooldown ["net_scanner"] ["10.30.30.10"] false =
      Except.ok { stateDuringRun := HState.attacking,
                  stateAfter := HState.idle } ∧
    ({ stateDuringRun := HState.attacking,
       stateAfter := HState.idle } : TriggerTrace).stateAfter ≠
      HState.cooldown :=
  ⟨by decide,
   (c9_trigger_overwrites_cooldown ["net_scanner"]
      [⟨30, "10.30.30.1", ["10.30.30.10"]⟩] ["net_scanner"] ["10.30.30.10"]
      false _ (by decide)).2.2⟩

-- ── C3: DHCP acquisition attempt count ──────────────────────────

theorem dhcpLoop_counter_bounds (oracle : Nat → Option String)
    (leases : List Lease) (vid : Nat) (iface : String) :
    ∀ (fuel : Nat) (st : DhcpSt),
      (dhcpLoop oracle leases vid iface fuel st).acquires ≤
        st.acquires + fuel ∧
      (dhcpLoop oracle leases vid iface fuel st).releases ≤
        st.releases + fuel := by
  intro fuel
  induction fuel with
  | zero => intro st; exact ⟨Nat.le_refl _, Nat.le_refl _⟩
  | succ n ih =>
    intro st
    dsimp only [dhcpLoop]
    split
    · exact ⟨Nat.le_trans (ih _).1 (by dsimp only; omega),
             Nat.le_trans (ih _).2 (by dsimp only; omega)⟩
    · split
      · exact ⟨Nat.le_trans (ih _).1 (by dsimp only; omega),
               Nat.le_trans (ih _).2 (by dsimp only; omega)⟩
      · exact ⟨by dsimp only; omega, by dsimp only; omega⟩

theorem dhcpLoop_all_duplicates (oracle : Nat → Option String)
    (leases : List Lease) (vid : Nat) (iface : String) (d : String)
    (hdup : checkDuplicate leases vid d = true)
    (horacle : ∀ k, oracle k = some d) (st : DhcpSt) :
    dhcpLoop oracle leases vid iface 3 st =
      { ip := none, lastIp := some d, acquires := st.acquires + 3,
        releases := st.releases + 3,
        cmds := st.cmds ++
          [Cmd.dhcpAcquire iface, Cmd.dhcpRelease iface,
           Cmd.dhcpAcquire iface, Cmd.dhcpRelease iface,
           Cmd.dhcpAcquire iface, Cmd.dhcpRelease iface] } := by
  simp only [dhcpLoop, horacle, hdup, if_true, List.append_assoc,
    List.cons_append, List.nil_append, List.singleton_append]

/-- C3 (amended): the retry loop of `_obtain_dhcp_with_retry` performs at
most 3 DHCP-acquire attempts, but the accept-duplicate fallback performs
one further acquire, so the DHCP-acquire operation runs at most 4 times
overall; in the deterministic-pool scenario (every attempt returns the
immediately previous duplicate IP) the behaviour is exactly three loop
attempts, three releases, then acceptance of the duplicate IP via a
fourth re-acquire. -/
theorem c3_dhcp_attempt_count :
    (∀ (oracle : Nat → Option String) (leases : List Lease)
       (vid : Nat) (iface : String),
      (obtainDhcpWithRetry oracle leases vid iface).acquires ≤ 4 ∧
      (obtainDhcpWithRetry oracle leases vid iface).releases ≤ 3) ∧
    (∀ (oracle : Nat → Option String) (leases : List Lease)
       (vid : Nat) (iface : String) (d : String),
      checkDuplicate leases vid d = true → (∀ k, oracle k = some d) →
      (obtainDhcpWithRetry oracle leases vid iface).acquires = 4 ∧
      (obtainDhcpWithRetry oracle leases vid iface).releases = 3 ∧
      (obtainDhcpWithRetry oracle leases vid iface).ip = some d) := by
  constructor
  · intro oracle leases vid iface
    have hb := dhcpLoop_counter_bounds oracle leases vid iface 3
      { ip := none, lastIp := none, acquires := 0, releases := 0, cmds := [] }
    have hb1 := hb.1
    have hb2 := hb.2
    dsimp only at hb1 hb2
    unfold obtainDhcpWithRetry
    dsimp only
    constructor <;> split <;> first
      | omega
      | (dsimp only; omega)
  · intro oracle leases vid iface d hdup horacle
    unfold obtainDhcpWithRetry
    rw [dhcpLoop_all_duplicates oracle leases vid iface d hdup horacle]
    simp [horacle]

/-- C3 counterexample: with the journal's most recent record for VLAN 30
holding `10.30.30.55` and DHCP returning `10.30.30.55` on every attempt,
the DHCP-acquire operation is invoked 4 times, not at most 3. -/
theorem c3_counterexample :
    (obtainDhcpWithRetry (fun _ => some "10.30.30.55")
      [⟨30, "10.30.30.55"⟩] 30 "eth1.30").acquires = 4 ∧
    ¬ (obtainDhcpWithRetry (fun _ => some "10.30.30.55")
      [⟨30, "10.30.30.55"⟩] 30 "eth1.30").acquires ≤ 3 ∧
    (obtainDhcpWithRetry (fun _ => some "10.30.30.55")
      [⟨30, "10.30.30.55"⟩] 30 "eth1.30").releases = 3 ∧
    (obtainDhcpWithRetry (fun _ => some "10.30.30.55")
      [⟨30, "10.30.30.55"⟩] 30 "eth1.30").ip = some "10.30.30.55" := by
  refine ⟨by decide, by decide, by decide, by decide⟩

/-- Witness for C3 amended at concrete inputs. -/
theorem c3_witness :
    (obtainDhcpWithRetry (fun _ => some "10.20.0.7")
      [⟨20, "10.20.0.7"⟩] 20 "eth1.20").acquires = 4 ∧
    (obtainDhcpWithRetry (fun _ => some "10.20.0.7")
      [⟨20, "10.20.0.7"⟩] 20 "eth1.20").releases = 3 ∧
    (obtainDhcpWithRetry (fun _ => some "10.20.0.7")
      [⟨20, "10.20.0.7"⟩] 20 "eth1.20").ip = some "10.20.0.7" :=
  c3_dhcp_attempt_count.2 _ _ 20 "eth1.20" "10.20.0.7"
    (by decide) (fun _ => rfl)

-- ── C1/C2: command-log and state shape of hop_once ──────────────

theorem dhcpLoop_cmds_shape (oracle : Nat → Option String)
    (leases : List Lease) (vid : Nat) (iface : String) :
    ∀ (fuel : Nat) (st : DhcpSt),
      (∀ c ∈ st.cmds, c = Cmd.dhcpAcquire iface ∨ c = Cmd.dhcpRelease iface) →
      ∀ c ∈ (dhcpLoop oracle leases vid iface fuel st).cmds,
        c = Cmd.dhcpAcquire iface ∨ c = Cmd.dhcpRelease iface := by
  intro fuel
  induction fuel with
  | zero => intro st hst; exact hst
  | succ n ih =>
    intro st hst c hc
    dsimp only [dhcpLoop] at hc
    revert hc
    split
    · intro hc
      refine ih _ ?_ c hc
      intro c' hc'
      dsimp only at hc'
      rcases List.mem_append.1 hc' with h' | h'
      · exact hst c' h'
      · rcases List.mem_singleton.1 h' with rfl
        exact Or.inl rfl
    · split
      · intro hc
        refine ih _ ?_ c hc
        intro c' hc'
        dsimp only at hc'
        rcases List.mem_append.1 hc' with h' | h'
        · rcases List.mem_append.1 h' with h'' | h''
          · exact hst c' h''
          · rcases List.mem_singleton.1 h'' with rfl
            exact Or.inl rfl
        · rcases List.mem_singleton.1 h' with rfl
          exact Or.inr rfl
      · intro hc
        dsimp only at hc
        rcases List.mem_append.1 hc with h' | h'
        · exact hst c h'
        · rcases List.mem_singleton.1 h' with rfl
          exact Or.inl rfl

theorem linkAdd_not_mem_dhcpCmds (oracle : Nat → Option String)
    (leases : List Lease) (vid : Nat) (iface : String) (i : String)
    (v : Nat) :
    Cmd.linkAdd i v ∉ (obtainDhcpWithRetry oracle leases vid iface).cmds := by
  intro hm
  have hshape : ∀ c ∈ (obtainDhcpWithRetry oracle leases vid iface).cmds,
      c = Cmd.dhcpAcquire iface ∨ c = Cmd.dhcpRelease iface := by
    intro c hc
    unfold obtainDhcpWithRetry at hc
    dsimp only at hc
    revert hc
    split
    · intro hc
      dsimp only at hc
      rcases List.mem_append.1 hc with h' | h'
      · exact dhcpLoop_cmds_shape oracle leases vid iface 3 _ (by simp) c h'
      · rcases List.mem_singleton.1 h' with rfl
        exact Or.inl rfl
    · intro hc
      exact dhcpLoop_cmds_shape oracle leases vid iface 3 _ (by simp) c hc
  rcases hshape _ hm with h' | h' <;> exact Cmd.noConfusion h'

theorem linkAdd_not_mem_teardownCmds (i : String) (v : Nat)
    (ip : Option String) (iface : String) :
    Cmd.linkAdd i v ∉ teardownCmds ip iface := by
  cases ip <;> simp [teardownCmds]

theorem linkAdd_not_mem_routeLog (i : String) (v : Nat) (c : Prop)
    [Decidable c] (ip gw iface : String) :
    Cmd.linkAdd i v ∉
      (if c then [Cmd.ruleAdd ip, Cmd.routeAdd gw iface] else []) := by
  split <;> simp

theorem linkDelete_mem_teardownCmds (ip : Option String) (iface : String) :
    Cmd.linkDelete iface ∈ teardownCmds ip iface := by
  cases ip <;> simp [teardownCmds]

theorem hopCore_spec (env : Env) (h : Hopper) (available : List Vlan) :
    ∃ vid : Nat,
      (∀ i v, Cmd.linkAdd i v ∈ (hopCore env h available).2.1 →
        i = ifaceName h vid ∧ v = vid) ∧
      (∀ r, (hopCore env h available).2.2 = Except.ok r →
        (hopCore env h available).2.1 = [] ∨
        Cmd.linkDelete (ifaceName h vid) ∈ (hopCore env h available).2.1) ∧
      (∀ r, (hopCore env h available).2.2 = Except.ok r →
        (hopCore env h available).1 = h ∨
        ((hopCore env h available).1.hstate = HState.cooldown ∧
         (hopCore env h available).1.currentVlan = none ∧
         (hopCore env h available).1.currentIface = none ∧
         (hopCore env h available).1.currentIp = none)) ∧
      (∀ e, (hopCore env h available).2.2 = Except.error e →
        env.createRaises = false →
        (hopCore env h available).1 = h ∨
        ((hopCore env h available).1.currentIface = some (ifaceName h vid) ∧
         (hopCore env h available).1.currentVlan = some vid)) := by
  rcases hOut : hopCore env h available with ⟨h', log, res⟩
  dsimp only
  unfold hopCore teardown at hOut
  rcases hGet : available[env.choiceIdx % available.length]? with _ | vlan
  · rw [hGet] at hOut
    dsimp only at hOut
    injection hOut with he hrest
    injection hrest with hl hr
    subst he; subst hl; subst hr
    exact ⟨0, fun i v hm => absurd hm (List.not_mem_nil _),
      fun r hr => absurd hr (by simp),
      fun r hr => absurd hr (by simp),
      fun e _ _ => Or.inl rfl⟩
  · rw [hGet] at hOut
    dsimp only at hOut
    by_cases hCr : env.createRaises = true
    · rw [if_pos hCr] at hOut
      injection hOut with he hrest
      injection hrest with hl hr
      subst he; subst hl; subst hr
      refine ⟨vlan.vid, ?_, ?_, ?_, ?_⟩
      · intro i v hm
        have heq := List.mem_singleton.1 hm
        injection heq with e1 e2
        exact ⟨e1, e2⟩
      · intro r hr; exact absurd hr (by simp)
      · intro r hr; exact absurd hr (by simp)
      · intro e _ hcf
        rw [hcf] at hCr
        exact Bool.noConfusion hCr
    · rw [if_neg hCr] at hOut
      rcases hIp : (obtainDhcpWithRetry (fun k => env.dhcp.getD k none)
          h.leases vlan.vid (ifaceName h vlan.vid)).ip with _ | ip
      · rw [hIp] at hOut
        dsimp only at hOut
        injection hOut with he hrest
        injection hrest with hl hr
        subst he; subst hl; subst hr
        refine ⟨vlan.vid, ?_, ?_, ?_, ?_⟩
        · intro i v hm
          rcases List.mem_append.1 hm with hm1 | hm1
          · rcases List.mem_append.1 hm1 with hm2 | hm2
            · rcases List.mem_cons.1 hm2 with heq | hm3
              · injection heq with e1 e2; exact ⟨e1, e2⟩
              · rcases List.mem_cons.1 hm3 with heq | hm4
                · exact Cmd.noConfusion heq
                · exact absurd hm4 (List.not_mem_nil _)
            · exact absurd hm2 (linkAdd_not_mem_dhcpCmds _ _ _ _ i v)
          · exact absurd hm1 (linkAdd_not_mem_teardownCmds i v none _)
        · intro r _
          exact Or.inr (List.mem_append.2
            (Or.inr (linkDelete_mem_teardownCmds none _)))
        · intro r _
          exact Or.inr ⟨rfl, rfl, rfl, rfl⟩
        · intro e he _
          exact absurd he (by simp)
      · rw [hIp] at hOut
        dsimp only at hOut
        by_cases hDisc : (vlan.gateway ≠ "" ∧ env.discoveryRaises = true)
        · rw [if_pos hDisc] at hOut
          injection hOut with he hrest
          injection hrest with hl hr
          subst he; subst hl; subst hr
          refine ⟨vlan.vid, ?_, ?_, ?_, ?_⟩
          · intro i v hm
            rcases List.mem_append.1 hm with hm1 | hm1
            · rcases List.mem_append.1 hm1 with hm2 | hm2
              · rcases List.mem_cons.1 hm2 with heq | hm3
                · injection heq with e1 e2; exact ⟨e1, e2⟩
                · rcases List.mem_cons.1 hm3 with heq | hm4
                  · exact Cmd.noConfusion heq
                  · exact absurd hm4 (List.not_mem_nil _)
              · exact absurd hm2 (linkAdd_not_mem_dhcpCmds _ _ _ _ i v)
            · exact absurd hm1 (linkAdd_not_mem_routeLog i v _ _ _ _)
          · intro r hr; exact absurd hr (by simp)
          · intro r hr; exact absurd hr (by simp)
          · intro e _ _
            exact Or.inr ⟨rfl, rfl⟩
        · rw [if_neg hDisc] at hOut
          by_cases hTgt :
            ((if (if vlan.gateway ≠ "" then env.discovered else []).isEmpty
                  = true then
                vlan.targets
              else if vlan.gateway ≠ "" then env.discovered
                else []).isEmpty = true)
          · rw [if_pos hTgt] at hOut
            injection hOut with he hrest
            injection hrest with hl hr
            subst he; subst hl; subst hr
            refine ⟨vlan.vid, ?_, ?_, ?_, ?_⟩
            · intro i v hm
              rcases List.mem_append.1 hm with hm1 | hm1
              · rcases List.mem_append.1 hm1 with hm2 | hm2
                · rcases List.mem_append.1 hm2 with hm3 | hm3
                  · rcases List.mem_cons.1 hm3 with heq | hm4
                    · injection heq with e1 e2; exact ⟨e1, e2⟩
                    · rcases List.mem_cons.1 hm4 with heq | hm5
                      · exact Cmd.noConfusion heq
                      · exact absurd hm5 (List.not_mem_nil _)
                  · exact absurd hm3 (linkAdd_not_mem_dhcpCmds _ _ _ _ i v)
                · exact absurd hm2 (linkAdd_not_mem_routeLog i v _ _ _ _)
              · exact absurd hm1 (linkAdd_not_mem_teardownCmds i v (some ip) _)
            · intro r _
              exact Or.inr (List.mem_append.2
                (Or.inr (linkDelete_mem_teardownCmds (some ip) _)))
            · intro r _
              exact Or.inr ⟨rfl, rfl, rfl, rfl⟩
            · intro e he _
              exact absurd he (by simp)
          · rw [if_neg hTgt] at hOut
            by_cases hApp : env.appendRaises = true
            · rw [if_pos hApp] at hOut
              injection hOut with he hrest
              injection hrest with hl hr
              subst he; subst hl; subst hr
              refine ⟨vlan.vid, ?_, ?_, ?_, ?_⟩
              · intro i v hm
                rcases List.mem_append.1 hm with hm1 | hm1
                · rcases List.mem_append.1 hm1 with hm2 | hm2
                  · rcases List.mem_cons.1 hm2 with heq | hm3
                    · injection heq with e1 e2; exact ⟨e1, e2⟩
                    · rcases List.mem_cons.1 hm3 with heq | hm4
                      · exact Cmd.noConfusion heq
                      · exact absurd hm4 (List.not_mem_nil _)
                  · exact absurd hm2 (linkAdd_not_mem_dhcpCmds _ _ _ _ i v)
                · exact absurd hm1 (linkAdd_not_mem_routeLog i v _ _ _ _)
              · intro r hr; exact absurd hr (by simp)
              · intro r hr; exact absurd hr (by simp)
              · intro e _ _
                exact Or.inr ⟨rfl, rfl⟩
            · rw [if_neg hApp] at hOut
              injection hOut with he hrest
              injection hrest with hl hr
              subst he; subst hl; subst hr
              refine ⟨vlan.vid, ?_, ?_, ?_, ?_⟩
              · intro i v hm
                rcases List.mem_append.1 hm with hm1 | hm1
                · rcases List.mem_append.1 hm1 with hm2 | hm2
                  · rcases List.mem_append.1 hm2 with hm3 | hm3
                    · rcases List.mem_cons.1 hm3 with heq | hm4
                      · injection heq with e1 e2; exact ⟨e1, e2⟩
                      · rcases List.mem_cons.1 hm4 with heq | hm5
                        · exact Cmd.noConfusion heq
                        · exact absurd hm5 (List.not_mem_nil _)
                    · exact absurd hm3 (linkAdd_not_mem_dhcpCmds _ _ _ _ i v)
                  · exact absurd hm2 (linkAdd_not_mem_routeLog i v _ _ _ _)
                · exact absurd hm1
                    (linkAdd_not_mem_teardownCmds i v (some ip) _)
              · intro r _
                exact Or.inr (List.mem_append.2
                  (Or.inr (linkDelete_mem_teardownCmds (some ip) _)))
              · intro r _
                exact Or.inr ⟨rfl, rfl, rfl, rfl⟩
              · intro e he _
                exact absurd he (by simp)

theorem hopOnce_spec (env : Env) (h : Hopper) (vf : Option (List Nat)) :
    ∃ vid : Nat,
      (∀ i v, Cmd.linkAdd i v ∈ (hopOnce env h vf).2.1 →
        i = ifaceName h vid ∧ v = vid) ∧
      (∀ r, (hopOnce env h vf).2.2 = Except.ok r →
        (hopOnce env h vf).2.1 = [] ∨
        Cmd.linkDelete (ifaceName h vid) ∈ (hopOnce env h vf).2.1) ∧
      (∀ r, (hopOnce env h vf).2.2 = Except.ok r →
        (hopOnce env h vf).1 = h ∨
        ((hopOnce env h vf).1.hstate = HState.cooldown ∧
         (hopOnce env h vf).1.currentVlan = none ∧
         (hopOnce env h vf).1.currentIface = none ∧
         (hopOnce env h vf).1.currentIp = none)) ∧
      (∀ e, (hopOnce env h vf).2.2 = Except.error e →
        env.createRaises = false →
        (hopOnce env h vf).1 = h ∨
        ((hopOnce env h vf).1.currentIface = some (ifaceName h vid) ∧
         (hopOnce env h vf).1.currentVlan = some vid)) := by
  unfold hopOnce
  cases vf with
  | none =>
    dsimp only
    simp only [Option.isSome_none, Bool.false_and, Bool.false_eq_true,
      if_false]
    exact hopCore_spec env h h.vlans
  | some f =>
    dsimp only
    simp only [Option.isSome_some, Bool.true_and]
    by_cases hEmp : (h.vlans.filter (fun v => f.contains v.vid)).isEmpty = true
    · rw [if_pos hEmp]
      exact ⟨0, fun i v hm => absurd hm (List.not_mem_nil _),
        fun r _ => Or.inl rfl, fun r _ => Or.inl rfl,
        fun e he => absurd he (by simp)⟩
    · rw [if_neg hEmp]
      exact hopCore_spec env h _

/-- C1 counterexample: `hop_once` has no try/finally — when the
discovery step raises (here: an uncaught error from the nmap
subprocess / gateway parsing, which `discover_hosts` does not catch),
the exception propagates out of `hop_once` after `ip link add` was
issued and no `ip link delete` is ever issued by that call, so the VLAN
sub-interface created by the call remains. -/
theorem c1_counterexample :
    (hopOnce
        { choiceIdx := 0, createRaises := false,
          dhcp := [some "10.30.30.20"], discoveryRaises := true,
          discovered := [], appendRaises := false, moduleReports := [] }
        { interface := "eth1", vlans := [⟨30, "10.30.30.1", ["10.30.30.10"]⟩],
          currentVlan := none, currentIface := none, currentIp := none,
          hstate := HState.idle, leases := [] }
        none).2.2 = Except.error Exc.discoveryError ∧
    Cmd.linkAdd "eth1.30" 30 ∈
      (hopOnce
        { choiceIdx := 0, createRaises := false,
          dhcp := [some "10.30.30.20"], discoveryRaises := true,
          discovered := [], appendRaises := false, moduleReports := [] }
        { interface := "eth1", vlans := [⟨30, "10.30.30.1", ["10.30.30.10"]⟩],
          currentVlan := none, currentIface := none, currentIp := none,
          hstate := HState.idle, leases := [] }
        none).2.1 ∧
    Cmd.linkDelete "eth1.30" ∉
      (hopOnce
        { choiceIdx := 0, createRaises := false,
          dhcp := [some "10.30.30.20"], discoveryRaises := true,
          discovered := [], appendRaises := false, moduleReports := [] }
        { interface := "eth1", vlans := [⟨30, "10.30.30.1", ["10.30.30.10"]⟩],
          currentVlan := none, currentIface := none, currentIp := none,
          hstate := HState.idle, leases := [] }
        none).2.1 := by
  refine ⟨by decide, by decide, by decide⟩

/-- C1 (amended): on every path on which `hop_once` returns normally
(its `error`, `skipped` and `complete` returns), the teardown sequence
runs before control leaves the call: any `ip link add` in the call's
command log is matched by an `ip link delete` of the same
sub-interface. When an exception is raised in the discovery or
journal-append steps it propagates out of `hop_once` without teardown
(the daemon loop and the `/hop` worker perform teardown as recovery). -/
theorem c1_teardown_on_normal_return (env : Env) (h : Hopper)
    (vf : Option (List Nat)) (r : HopResult) (i : String) (v : Nat)
    (hok : (hopOnce env h vf).2.2 = Except.ok r)
    (hmem : Cmd.linkAdd i v ∈ (hopOnce env h vf).2.1) :
    Cmd.linkDelete i ∈ (hopOnce env h vf).2.1 := by
  obtain ⟨vid, hAdd, hDel, _, _⟩ := hopOnce_spec env h vf
  obtain ⟨hi, hv⟩ := hAdd i v hmem
  subst hi
  rcases hDel r hok with hnil | hdel
  · rw [hnil] at hmem
    exact absurd hmem (List.not_mem_nil _)
  · exact hdel

/-- Witness for C1 amended: a concrete completed hop whose log deletes
the sub-interface it added. -/
theorem c1_witness :
    Cmd.linkDelete "eth1.30" ∈
      (hopOnce
        { choiceIdx := 0, createRaises := false,
          dhcp := [some "10.30.30.20"], discoveryRaises := false,
          discovered := ["10.30.30.40"], appendRaises := false,
          moduleReports := [] }
        { interface := "eth1", vlans := [⟨30, "10.30.30.1", ["10.30.30.10"]⟩],
          currentVlan := none, currentIface := none, currentIp := none,
          hstate := HState.idle, leases := [] }
        none).2.1 :=
  c1_teardown_on_normal_return _ _ none
    { status := "complete", message := "" } "eth1.30" 30
    (by decide) (by decide)

/-- C2 counterexample: in the daemon loop's exception-recovery path,
when `ip link add` fails (`_create_vlan_iface` raises after
`_current_vlan` was set but before `_current_iface` was assigned), the
recovery guard `if self._current_iface and self._current_vlan` is false,
so no teardown runs, and the loop then sets state to Cooldown while
`_current_vlan` is still set — violating the invariant. -/
theorem c2_counterexample :
    hopperInv
      { interface := "eth1", vlans := [⟨30, "10.30.30.1", ["10.30.30.10"]⟩],
        currentVlan := none, currentIface := none, currentIp := none,
        hstate := HState.idle, leases := [] } ∧
    (daemonStep
        { choiceIdx := 0, createRaises := true, dhcp := [],
          discoveryRaises := false, discovered := [], appendRaises := false,
          moduleReports := [] }
        none
        { interface := "eth1", vlans := [⟨30, "10.30.30.1", ["10.30.30.10"]⟩],
          currentVlan := none, currentIface := none, currentIp := none,
          hstate := HState.idle, leases := [] }).1.hstate =
      HState.cooldown ∧
    (daemonStep
        { choiceIdx := 0, createRaises := true, dhcp := [],
          discoveryRaises := false, discovered := [], appendRaises := false,
          moduleReports := [] }
        none
        { interface := "eth1", vlans := [⟨30, "10.30.30.1", ["10.30.30.10"]⟩],
          currentVlan := none, currentIface := none, currentIp := none,
          hstate := HState.idle, leases := [] }).1.currentVlan = some 30 ∧
    ¬ hopperInv
      (daemonStep
        { choiceIdx := 0, createRaises := true, dhcp := [],
          discoveryRaises := false, discovered := [], appendRaises := false,
          moduleReports := [] }
        none
        { interface := "eth1", vlans := [⟨30, "10.30.30.1", ["10.30.30.10"]⟩],
          currentVlan := none, currentIface := none, currentIp := none,
          hstate := HState.idle, leases := [] }).1 := by
  refine ⟨by decide, by decide, by decide, by decide⟩

/-- C2 (amended): the invariant "state Idle or Cooldown implies the
ActiveHop fields are cleared" is preserved by every daemon iteration —
including the exception-recovery path — **provided `ip link add` does
not fail**: starting from a cleared Idle/Cooldown state, the iteration
ends in Cooldown with all ActiveHop fields cleared. (When `ip link add`
fails, the recovery path sets Cooldown with `_current_vlan` still set,
violating the invariant — see the counterexample.) -/
theorem c2_daemon_cooldown_invariant (env : Env) (vf : Option (List Nat))
    (h : Hopper)
    (hst : h.hstate = HState.idle ∨ h.hstate = HState.cooldown)
    (hv : h.currentVlan = none) (hif : h.currentIface = none)
    (hip : h.currentIp = none) (hcr : env.createRaises = false) :
    (daemonStep env vf h).1.hstate = HState.cooldown ∧
    (daemonStep env vf h).1.currentVlan = none ∧
    (daemonStep env vf h).1.currentIface = none ∧
    (daemonStep env vf h).1.currentIp = none := by
  obtain ⟨vid, _, _, hOk, hErr⟩ := hopOnce_spec env h vf
  unfold daemonStep teardown
  dsimp only
  cases hres : (hopOnce env h vf).2.2 with
  | error e =>
    rcases hErr e hres hcr with heq | ⟨hif2, hv2⟩
    · rw [heq, hif, hv]
      dsimp only
      exact ⟨rfl, rfl, rfl, hip⟩
    · rw [hif2, hv2]
      dsimp only
      exact ⟨rfl, rfl, rfl, rfl⟩
  | ok r =>
    rcases hOk r hres with heq | ⟨h1, h2, h3, h4⟩
    · rw [heq]
      exact ⟨rfl, hv, hif, hip⟩
    · exact ⟨rfl, h2, h3, h4⟩

/-- Witness for C2 amended: a concrete daemon iteration from Idle ends
in Cooldown with ActiveHop cleared. -/
theorem c2_witness :
    (daemonStep
        { choiceIdx := 0, createRaises := false,
          dhcp := [some "10.30.30.20"], discoveryRaises := false,
          discovered := [], appendRaises := false, moduleReports := [] }
        none
        { interface := "eth1", vlans := [⟨30, "10.30.30.1", ["10.30.30.10"]⟩],
          currentVlan := none, currentIface := none, currentIp := none,
          hstate := HState.idle, leases := [] }).1.hstate =
      HState.cooldown ∧
    (daemonStep
        { choiceIdx := 0, createRaises := false,
          dhcp := [some "10.30.30.20"], discoveryRaises := false,
          discovered := [], appendRaises := false, moduleReports := [] }
        none
        { interface := "eth1", vlans := [⟨30, "10.30.30.1", ["10.30.30.10"]⟩],
          currentVlan := none, currentIface := none, currentIp := none,
          hstate := HState.idle, leases := [] }).1.currentVlan = none ∧
    (daemonStep
        { choiceIdx := 0, createRaises := false,
          dhcp := [some "10.30.30.20"], discoveryRaises := false,
          discovered := [], appendRaises := false, moduleReports := [] }
        none
        { interface := "eth1", vlans := [⟨30, "10.30.30.1", ["10.30.30.10"]⟩],
          currentVlan := none, currentIface := none, currentIp := none,
          hstate := HState.idle, leases := [] }).1.currentIface = none ∧
    (daemonStep
        { choiceIdx := 0, createRaises := false,
          dhcp := [some "10.30.30.20"], discoveryRaises := false,
          discovered := [], appendRaises := false, moduleReports := [] }
        none
        { interface := "eth1", vlans := [⟨30, "10.30.30.1", ["10.30.30.10"]⟩],
          currentVlan := none, currentIface := none, currentIp := none,
          hstate := HState.idle, leases := [] }).1.currentIp = none :=
  c2_daemon_cooldown_invariant _ none _ (Or.inl rfl) rfl rfl rfl rfl

end ChaosBot
